import Mathlib

/-!
Verification of `@pwrdrvr/dynamodb-session-store` (src/src/dynamodb-store.ts and
src/src/deep-replace-dates-with-strings.ts) against its natural-language
specification.

The store is shallowly embedded as pure Lean functions:
* JavaScript values that can appear in a session payload are modelled by `JSVal`;
  JS numbers are modelled by exact rationals (IEEE doubles agree with exact
  arithmetic on the integer-millisecond magnitudes the store manipulates).
* The DynamoDB table is a partial map from the hash-key string to stored rows,
  and each write the store issues is reified as a `WriteOp` so that theorems can
  count writes and state frame conditions.
* The asynchronous callbacks are modelled by result types (`GetResult`,
  `BootOutcome`, `Option`-valued errors).
* External collaborators (`JSON.parse`, `Date.prototype.toISOString`) are
  parameters of the functions that invoke them.
-/

namespace SessionStore

/-- Model of the JavaScript values a session payload can contain.  `date` is a
JS `Date` instance carrying its epoch-millisecond value; `num` carries an exact
rational modelling a JS number. -/
inductive JSVal where
  | null : JSVal
  | bool (b : Bool) : JSVal
  | num (n : Rat) : JSVal
  | str (s : String) : JSVal
  | date (ms : Int) : JSVal
  | arr (xs : List JSVal) : JSVal
  | obj (fields : List (String × JSVal)) : JSVal

/-- JavaScript truthiness of a modelled value (`NaN` is not modelled). -/
def JSVal.truthy : JSVal → Bool
  | .null => false
  | .bool b => b
  | .num n => n != 0
  | .str s => s != ""
  | .date _ => true
  | .arr _ => true
  | .obj _ => true

/-- JS property lookup on an object literal's field list. -/
def lookupField (fields : List (String × JSVal)) (k : String) : Option JSVal :=
  (fields.find? (fun p => p.1 == k)).map (fun p => p.2)

mutual

/-- src/src/deep-replace-dates-with-strings.ts, `deepReplaceDatesWithISOStrings`:
a `Date` becomes its ISO string, arrays (via `Array.prototype.map`) and
own-property objects (via the `for..in` loop) are walked recursively,
everything else is returned unchanged.  `toISO` is the external
`Date.prototype.toISOString`. -/
def deepReplaceDatesWithISOStrings (toISO : Int → String) : JSVal → JSVal
  | .date ms => .str (toISO ms)
  | .arr xs => .arr (deepReplaceList toISO xs)
  | .obj fs => .obj (deepReplaceFields toISO fs)
  | .null => .null
  | .bool b => .bool b
  | .num n => .num n
  | .str s => .str s

/-- The `obj.map(deepReplaceDatesWithISOStrings)` call of the array branch. -/
def deepReplaceList (toISO : Int → String) : List JSVal → List JSVal
  | [] => []
  | x :: xs => deepReplaceDatesWithISOStrings toISO x :: deepReplaceList toISO xs

/-- The `for (const key in obj)` loop of the object branch. -/
def deepReplaceFields (toISO : Int → String) :
    List (String × JSVal) → List (String × JSVal)
  | [] => []
  | (k, v) :: fs => (k, deepReplaceDatesWithISOStrings toISO v) :: deepReplaceFields toISO fs

end

mutual

/-- Semantics of `JSON.parse(JSON.stringify(v))` on the modelled value domain:
`Date` values are serialized through `Date.prototype.toJSON` (i.e. `toISOString`)
and read back as plain strings, while primitives, arrays and plain objects
survive unchanged. -/
def jsonRoundTrip (toISO : Int → String) : JSVal → JSVal
  | .date ms => .str (toISO ms)
  | .arr xs => .arr (jsonRoundTripList toISO xs)
  | .obj fs => .obj (jsonRoundTripFields toISO fs)
  | .null => .null
  | .bool b => .bool b
  | .num n => .num n
  | .str s => .str s

/-- `jsonRoundTrip` mapped over the elements of an array. -/
def jsonRoundTripList (toISO : Int → String) : List JSVal → List JSVal
  | [] => []
  | x :: xs => jsonRoundTrip toISO x :: jsonRoundTripList toISO xs

/-- `jsonRoundTrip` mapped over the fields of an object. -/
def jsonRoundTripFields (toISO : Int → String) :
    List (String × JSVal) → List (String × JSVal)
  | [] => []
  | (k, v) :: fs => (k, jsonRoundTrip toISO v) :: jsonRoundTripFields toISO fs

end

/-- A stored DynamoDB item for a session, minus the hash-key attribute (which is
the key the row is stored under).  `expires` is the epoch-seconds TTL attribute
(`none` = attribute absent), `sess` the session-payload attribute, and `extra`
any further attributes, kept so frame conditions can be stated. -/
structure Row where
  expires : Option Int
  sess : Option JSVal
  extra : List (String × JSVal)

/-- The DynamoDB table: a partial map from the hash-key string to rows. -/
def Table : Type := String → Option Row

/-- The writes the store can issue against the table. -/
inductive WriteOp where
  | put (key : String) (row : Row)
  | updateExpires (key : String) (e : Int)
  | delete (key : String)

/-- DynamoDB semantics of each write.  `PutItem` replaces the whole item;
`UpdateItem` with expression `set expires = :e` rewrites only the `expires`
attribute of an existing item (creating a bare item when the key is absent);
`DeleteItem` removes the item and succeeds whether or not it existed. -/
def applyOp (t : Table) : WriteOp → Table
  | .put k r => fun k' => if k' = k then some r else t k'
  | .updateExpires k e => fun k' =>
      if k' = k then
        match t k with
        | some row => some { row with expires := some e }
        | none => some { expires := some e, sess := none, extra := [] }
      else t k'
  | .delete k => fun k' => if k' = k then none else t k'

/-- Apply a list of writes in order. -/
def applyOps (t : Table) (ops : List WriteOp) : Table :=
  ops.foldl applyOp t

/-- Outcome of `DynamoDBStore.get` as delivered through its callback:
`callback(null, null)`, `callback(null, sess)` or `callback(err)`. -/
inductive GetResult where
  | noSession : GetResult
  | session (v : JSVal) : GetResult
  | error : GetResult

/-- The guard `Item.expires && Item.expires * 1000 < Date.now()` from
`DynamoDBStore.get`: an absent or zero (falsy) `expires` attribute makes the
whole conjunction falsy and the expiration check is skipped. -/
def expiresInPast (e : Option Int) (nowMs : Int) : Bool :=
  match e with
  | some v => decide (v ≠ 0) && decide (v * 1000 < nowMs)
  | none => false

namespace DynamoDBStore

/-- `DynamoDBStore.get` (dynamodb-store.ts:374-427), as a function of the
external `JSON.parse` (`parse`), the clock (`nowMs` = `Date.now()`), the table
and the hash key (`prefix ++ sid`). -/
def get (parse : String → Option JSVal) (nowMs : Int) (t : Table) (key : String) :
    GetResult :=
  match t key with
  | none => .noSession
  | some item =>
    if expiresInPast item.expires nowMs then .noSession
    else
      match item.sess with
      | none => .noSession
      | some v =>
        if !v.truthy then .noSession
        else
          match v with
          | .str s =>
            match parse s with
            | some p => .session p
            | none => .error
          | _ => .session v

/-- `DynamoDBStore.newExpireSecondsSinceEpochUTC` (dynamodb-store.ts:579-585):
`Math.floor((now + maxAge)/1000)` when `cookie.maxAge` is a number, else
`Math.floor((now + 24h)/1000)`.  `maxAge` is `some m` exactly when
`typeof sess.cookie.maxAge === 'number'`. -/
def newExpireSecondsSinceEpochUTC (nowMs : Int) (maxAge : Option Rat) : Int :=
  match maxAge with
  | some m => Rat.floor (((nowMs : Rat) + m) / 1000)
  | none => Rat.floor (((nowMs : Rat) + 60 * 60 * 24 * 1000) / 1000)

/-- Reading `sess.cookie.maxAge` from a session object: `none` at the outer
level when the read would throw a `TypeError` (no `cookie` field, or `cookie`
null), in which case `set` reports the error to its callback and writes
nothing; otherwise `some (some m)` when the value is a number and `some none`
when it is not. -/
def cookieMaxAgeProp (fields : List (String × JSVal)) : Option (Option Rat) :=
  match lookupField fields "cookie" with
  | none => none
  | some JSVal.null => none
  | some (JSVal.obj cf) =>
    match lookupField cf "maxAge" with
    | some (JSVal.num n) => some (some n)
    | _ => some none
  | some _ => some none

/-- The `sess` attribute built by `DynamoDBStore.set` (dynamodb-store.ts:462-467):
`{ ...session, ...(session.cookie ? { cookie: { ...JSON.parse(JSON.stringify(session.cookie)) } } : {}) }`.
Only the `cookie` field is JSON round-tripped; every other field is spread
through unchanged. -/
def buildStoredSess (toISO : Int → String) (fields : List (String × JSVal)) : JSVal :=
  match lookupField fields "cookie" with
  | some c =>
    if c.truthy then
      JSVal.obj (fields.map (fun p =>
        if p.1 = "cookie" then (p.1, jsonRoundTrip toISO c) else p))
    else JSVal.obj fields
  | none => JSVal.obj fields

/-- The item written by `DynamoDBStore.set` (dynamodb-store.ts:451-469): the
hash key, a freshly computed `expires` and the normalized `sess` attribute.
`none` when evaluating `newExpireSecondsSinceEpochUTC` throws (no cookie). -/
def setRow (toISO : Int → String) (nowMs : Int) (fields : List (String × JSVal)) :
    Option Row :=
  (cookieMaxAgeProp fields).map (fun ma =>
    { expires := some (newExpireSecondsSinceEpochUTC nowMs ma)
      sess := some (buildStoredSess toISO fields)
      extra := [] })

/-- The writes issued by one `set` call for key `pfx ++ sid`. -/
def setOps (toISO : Int → String) (nowMs : Int) (pfx sid : String)
    (fields : List (String × JSVal)) : List WriteOp :=
  match setRow toISO nowMs fields with
  | some r => [.put (pfx ++ sid) r]
  | none => []

/-- The table after one `set` call. -/
def setTable (toISO : Int → String) (nowMs : Int) (pfx sid : String)
    (fields : List (String × JSVal)) (t : Table) : Table :=
  applyOps t (setOps toISO nowMs pfx sid fields)

/-- The cookie sub-structure of the session object handed to `touch`.
`maxAge = none` models a non-numeric `cookie.maxAge`; `originalMaxAge = none`
models `cookie.originalMaxAge` being null (which JS arithmetic and comparison
coerce to 0). -/
structure CookieData where
  maxAge : Option Rat
  originalMaxAge : Option Rat
deriving DecidableEq

/-- The parts of the session object that `touch` reads: the top-level `expires`
hint (epoch seconds, possibly absent) and the cookie. -/
structure SessionTouchData where
  expires : Option Rat
  cookie : CookieData
deriving DecidableEq

/-- `const currentTimeSecs = Math.floor(Date.now() / 1000)` (dynamodb-store.ts:505). -/
def currentTimeSecs (nowMs : Int) : Int :=
  Int.fdiv nowMs 1000

/-- `const expiresTimeSecs = session.expires ? session.expires : 0`
(dynamodb-store.ts:504): a missing or zero (falsy) hint becomes 0. -/
def expiresTimeSecs (s : SessionTouchData) : Rat :=
  match s.expires with
  | some v => if v = 0 then 0 else v
  | none => 0

/-- The value of `session.cookie.originalMaxAge` as used in arithmetic and
comparison: JS coerces null to 0. -/
def omaValue (c : CookieData) : Rat :=
  c.originalMaxAge.getD 0

/-- `const timePassedSecs = currentTimeSecs + session.cookie.originalMaxAge / 1000 - expiresTimeSecs`
(dynamodb-store.ts:508-509). -/
def timePassedSecs (nowMs : Int) (s : SessionTouchData) : Rat :=
  (currentTimeSecs nowMs : Rat) + omaValue s.cookie / 1000 - expiresTimeSecs s

/-- `const touchAfterSecsCapped = touchAfter * 1000 > session.cookie.originalMaxAge ? Math.floor(0.1 * (session.cookie.originalMaxAge / 1000)) : touchAfter`
(dynamodb-store.ts:514-517), with 0.1 as the exact rational 1/10 (the double
computation agrees on session-lifetime magnitudes). -/
def touchAfterSecsCapped (touchAfter : Rat) (c : CookieData) : Rat :=
  if touchAfter * 1000 > omaValue c then
    (Rat.floor ((1 / 10 : Rat) * (omaValue c / 1000)) : Int)
  else touchAfter

/-- The guard `timePassedSecs > touchAfterSecsCapped` (dynamodb-store.ts:519). -/
def shouldTouch (nowMs : Int) (touchAfter : Rat) (s : SessionTouchData) : Bool :=
  decide (timePassedSecs nowMs s > touchAfterSecsCapped touchAfter s.cookie)

/-- The writes issued by one `touch` call (dynamodb-store.ts:501-543): one
`UpdateItem` setting only `expires` when the guard fires, nothing otherwise. -/
def touchOps (nowMs : Int) (touchAfter : Rat) (pfx sid : String)
    (s : SessionTouchData) : List WriteOp :=
  if shouldTouch nowMs touchAfter s then
    [.updateExpires (pfx ++ sid) (newExpireSecondsSinceEpochUTC nowMs s.cookie.maxAge)]
  else []

/-- The table after one `touch` call. -/
def touchTable (nowMs : Int) (touchAfter : Rat) (pfx sid : String)
    (s : SessionTouchData) (t : Table) : Table :=
  applyOps t (touchOps nowMs touchAfter pfx sid s)

/-- `DynamoDBStore.destroy` (dynamodb-store.ts:548-577): one unconditional
`DeleteItem` on `pfx ++ sid`.  DynamoDB's `DeleteItem` succeeds whether or not
the item exists, so the callback always receives null: the error component is
`none`. -/
def destroy (t : Table) (pfx sid : String) : Table × Option String :=
  (applyOp t (.delete (pfx ++ sid)), none)

end DynamoDBStore

/-- One response of the `DescribeTable` collaborator: resolves with a defined
`Table` carrying `TableStatus` (possibly absent), resolves without a `Table`,
or rejects. -/
inductive DescribeResult where
  | found (status : Option String)
  | noTable
  | failed
deriving DecidableEq

/-- The calls `createTableIfNotExists` makes against its collaborators, in
order, including the waits between polls. -/
inductive BootCall where
  | describeTable
  | createTable
  | updateTTL (attrName : String)
  | sleep (ms : Nat)
deriving DecidableEq

/-- How `createTableIfNotExists` returns: normally, or by rethrowing an
unexpected error. -/
inductive BootOutcome where
  | ok
  | error
deriving DecidableEq

/-- The environment the bootstrapper runs against: the response to the initial
`DescribeTable`, whether `CreateTable` succeeds, the response to the i-th poll
of the waiting loop, and whether `UpdateTimeToLive` succeeds. -/
structure BootEnv where
  firstDescribe : DescribeResult
  createOk : Bool
  poll : Nat → DescribeResult
  ttlOk : Bool

/-- `describeTable.Table && describeTable.Table.TableStatus === 'ACTIVE'`
(dynamodb-store.ts:272). -/
def isActiveDescribe : DescribeResult → Bool
  | .found (some s) => s == "ACTIVE"
  | _ => false

/-- The polling loop of `createTableIfNotExists` (dynamodb-store.ts:264-284):
up to `fuel` (= 10) iterations, each issuing one `DescribeTable`; the loop
breaks without sleeping on the first ACTIVE observation and otherwise sleeps
3000 ms before the next iteration (a rejected describe is caught and treated
like a non-ACTIVE one).  Returns the call trace and the final `tableReady`. -/
def pollForActive (poll : Nat → DescribeResult) : Nat → Nat → List BootCall × Bool
  | _, 0 => ([], false)
  | i, Nat.succ fuel =>
    if isActiveDescribe (poll i) then ([.describeTable], true)
    else
      let r := pollForActive poll (i + 1) fuel
      (.describeTable :: .sleep 3000 :: r.1, r.2)

/-- `DynamoDBStore.createTableIfNotExists` (dynamodb-store.ts:225-308) as the
trace of collaborator calls it performs plus how it returns.  A resolved
describe with a defined `Table` returns at once; a rejected describe (or one
with no `Table`) falls through to `CreateTable`; a failing `CreateTable` or
`UpdateTimeToLive` rethrows; exhausting the polling budget returns normally
without enabling TTL. -/
def createTableIfNotExists (env : BootEnv) : List BootCall × BootOutcome :=
  match env.firstDescribe with
  | .found _ => ([.describeTable], .ok)
  | _ =>
    if env.createOk = false then ([.describeTable, .createTable], .error)
    else
      let p := pollForActive env.poll 0 10
      if p.2 = false then (.describeTable :: .createTable :: p.1, .ok)
      else if env.ttlOk then
        (.describeTable :: .createTable :: (p.1 ++ [.updateTTL "expires"]), .ok)
      else
        (.describeTable :: .createTable :: (p.1 ++ [.updateTTL "expires"]), .error)

/-- Modelled from the spec (for comparison with the code): "Effective throttle
window equals min(touchAfter, 10% of nominal lifetime)", with the nominal
lifetime taken from `cookie.originalMaxAge` (milliseconds). -/
def specEffectiveWindow (touchAfter : Rat) (c : DynamoDBStore.CookieData) : Rat :=
  min touchAfter ((1 / 10 : Rat) * (DynamoDBStore.omaValue c / 1000))

/-- Modelled from the spec (for comparison with the code): "elapsedSinceLastRefresh
= now + (cookie.originalMaxAge or lifetime) - currentExpiresHint", in seconds,
where the nominal lifetime is `cookie.maxAge` when numeric and 24 hours
otherwise (spec section 3). -/
def specElapsedSinceLastRefresh (nowSecs : Rat) (s : DynamoDBStore.SessionTouchData) : Rat :=
  nowSecs +
    (match s.cookie.originalMaxAge with
     | some m => m / 1000
     | none =>
       match s.cookie.maxAge with
       | some m => m / 1000
       | none => 60 * 60 * 24) -
    DynamoDBStore.expiresTimeSecs s


/-! ## Theorems -/

open DynamoDBStore

/-- Evaluation helper: `Rat.floor` of a rational that equals an integer. -/
theorem ratFloorEval (q : Rat) (n : Int) (h : q = (n : Rat)) : Rat.floor q = n := by
  rw [h]
  exact_mod_cast Int.floor_intCast (α := ℚ) n

/-- C1: whenever the elapsed time computed by `touch` exceeds the effective
throttle window, `touch` issues exactly one partial `UpdateItem` that rewrites
only the `expires` attribute of the row keyed by `pfx ++ sid` to the freshly
computed expiration, leaving the row's `sess` payload, its other attributes and
every other key of the table unchanged; when the elapsed time does not exceed
the window, `touch` issues no write and the table is unchanged. -/
theorem touch_writes_only_expires (nowMs : Int) (touchAfter : Rat)
    (pfx sid : String) (s : SessionTouchData) (t : Table) (row : Row)
    (hrow : t (pfx ++ sid) = some row) :
    (timePassedSecs nowMs s > touchAfterSecsCapped touchAfter s.cookie →
      touchOps nowMs touchAfter pfx sid s =
        [WriteOp.updateExpires (pfx ++ sid)
          (newExpireSecondsSinceEpochUTC nowMs s.cookie.maxAge)] ∧
      touchTable nowMs touchAfter pfx sid s t (pfx ++ sid) =
        some { row with expires := some (newExpireSecondsSinceEpochUTC nowMs s.cookie.maxAge) } ∧
      (∀ k, k ≠ pfx ++ sid → touchTable nowMs touchAfter pfx sid s t k = t k)) ∧
    (¬ timePassedSecs nowMs s > touchAfterSecsCapped touchAfter s.cookie →
      touchOps nowMs touchAfter pfx sid s = [] ∧
      touchTable nowMs touchAfter pfx sid s t = t) := by
  constructor
  · intro h
    have hs : shouldTouch nowMs touchAfter s = true := by
      rw [shouldTouch, decide_eq_true_eq]
      exact h
    refine ⟨by rw [touchOps, if_pos hs], ?_, ?_⟩
    · rw [touchTable, touchOps, if_pos hs]
      simp [applyOps, applyOp, hrow]
    · intro k hk
      rw [touchTable, touchOps, if_pos hs]
      simp [applyOps, applyOp, hrow, if_neg hk]
  · intro h
    have hs : shouldTouch nowMs touchAfter s = false := by
      rw [shouldTouch, decide_eq_false_iff_not]
      exact h
    refine ⟨by rw [touchOps, if_neg (by simp [hs])], ?_⟩
    rw [touchTable, touchOps, if_neg (by simp [hs])]
    rfl

/-- Witness for C1 at a concrete input (the write case fires: elapsed time is
about 10^6 s, far above the capped window of 180 s). -/
theorem touch_writes_only_expires_witness :
    (timePassedSecs 1000000000 ⟨some 0, ⟨some 1800000, some 1800000⟩⟩ >
        touchAfterSecsCapped 3600 (⟨some 0, ⟨some 1800000, some 1800000⟩⟩ :
          SessionTouchData).cookie →
      touchOps 1000000000 3600 "session#" "abc"
          ⟨some 0, ⟨some 1800000, some 1800000⟩⟩ =
        [WriteOp.updateExpires ("session#" ++ "abc")
          (newExpireSecondsSinceEpochUTC 1000000000
            (⟨some 0, ⟨some 1800000, some 1800000⟩⟩ :
              SessionTouchData).cookie.maxAge)] ∧
      touchTable 1000000000 3600 "session#" "abc"
          ⟨some 0, ⟨some 1800000, some 1800000⟩⟩
          (fun k => if k = "session#abc" then some ⟨some 5, some (.obj []), []⟩ else none)
          ("session#" ++ "abc") =
        some (⟨some (newExpireSecondsSinceEpochUTC 1000000000
            (⟨some 0, ⟨some 1800000, some 1800000⟩⟩ :
              SessionTouchData).cookie.maxAge), some (.obj []), []⟩ : Row) ∧
      (∀ k, k ≠ "session#" ++ "abc" →
        touchTable 1000000000 3600 "session#" "abc"
            ⟨some 0, ⟨some 1800000, some 1800000⟩⟩
            (fun k2 => if k2 = "session#abc" then some ⟨some 5, some (.obj []), []⟩ else none)
            k =
          (fun k2 => if k2 = "session#abc" then some ⟨some 5, some (.obj []), []⟩ else none) k)) ∧
    (¬ timePassedSecs 1000000000 ⟨some 0, ⟨some 1800000, some 1800000⟩⟩ >
        touchAfterSecsCapped 3600 (⟨some 0, ⟨some 1800000, some 1800000⟩⟩ :
          SessionTouchData).cookie →
      touchOps 1000000000 3600 "session#" "abc"
          ⟨some 0, ⟨some 1800000, some 1800000⟩⟩ = [] ∧
      touchTable 1000000000 3600 "session#" "abc"
          ⟨some 0, ⟨some 1800000, some 1800000⟩⟩
          (fun k => if k = "session#abc" then some ⟨some 5, some (.obj []), []⟩ else none) =
        (fun k => if k = "session#abc" then some ⟨some 5, some (.obj []), []⟩ else none)) :=
  touch_writes_only_expires 1000000000 3600 "session#" "abc"
    ⟨some 0, ⟨some 1800000, some 1800000⟩⟩
    (fun k => if k = "session#abc" then some ⟨some 5, some (.obj []), []⟩ else none)
    ⟨some 5, some (.obj []), []⟩ rfl


/-- C2 counterexample: with `touchAfter = 600` s and a nominal lifetime of
1800 s (`originalMaxAge = 1800000` ms), the code computes an effective window
of 600 s, while `min(touchAfter, 10% of nominal lifetime)` is 180 s — the
claimed min formula does not match the code. -/
theorem touch_window_min_counterexample :
    touchAfterSecsCapped 600 ⟨some 1800000, some 1800000⟩ = 600 ∧
    specEffectiveWindow 600 ⟨some 1800000, some 1800000⟩ = 180 ∧
    touchAfterSecsCapped 600 ⟨some 1800000, some 1800000⟩ ≠
      specEffectiveWindow 600 ⟨some 1800000, some 1800000⟩ := by
  have h1 : touchAfterSecsCapped 600 ⟨some 1800000, some 1800000⟩ = 600 := by
    rw [touchAfterSecsCapped, if_neg (by norm_num [omaValue])]
  have h2 : specEffectiveWindow 600 ⟨some 1800000, some 1800000⟩ = 180 := by
    rw [specEffectiveWindow]
    norm_num [omaValue]
  refine ⟨h1, h2, ?_⟩
  rw [h1, h2]
  norm_num

/-- C2 amended: the effective throttle window equals the configured
`touchAfter` whenever `touchAfter` seconds does not exceed the session's
nominal lifetime (`originalMaxAge` in ms), and is capped down to
`floor(10% of the nominal lifetime in seconds)` only when `touchAfter` exceeds
the lifetime; in particular `touchAfter = 3600` with a nominal lifetime of
1800 s yields an effective window of 180 s. -/
theorem touch_window_cap_formula (touchAfter : Rat) (c : CookieData) (m : Rat)
    (hm : c.originalMaxAge = some m) :
    (touchAfter * 1000 ≤ m → touchAfterSecsCapped touchAfter c = touchAfter) ∧
    (touchAfter * 1000 > m →
      touchAfterSecsCapped touchAfter c =
        ((Rat.floor ((1 / 10 : Rat) * (m / 1000)) : Int) : Rat)) ∧
    touchAfterSecsCapped 3600 ⟨some 1800000, some 1800000⟩ = 180 := by
  have homa : omaValue c = m := by rw [omaValue, hm]; rfl
  refine ⟨?_, ?_, ?_⟩
  · intro h
    rw [touchAfterSecsCapped, homa, if_neg (not_lt.mpr h)]
  · intro h
    rw [touchAfterSecsCapped, homa, if_pos h]
  · rw [touchAfterSecsCapped, if_pos (by norm_num [omaValue])]
    have h180 : Rat.floor ((1 / 10 : Rat) *
        (omaValue ⟨some 1800000, some 1800000⟩ / 1000)) = 180 := by
      refine ratFloorEval _ 180 ?_
      norm_num [omaValue]
    rw [h180]
    norm_num

/-- Witness for C2's amended theorem at a concrete input: `touchAfter = 3600`,
lifetime 1800 s, where the cap branch fires. -/
theorem touch_window_cap_formula_witness :
    touchAfterSecsCapped 3600 (⟨some 1800000, some 1800000⟩ : CookieData) =
      ((Rat.floor ((1 / 10 : Rat) * ((1800000 : Rat) / 1000)) : Int) : Rat) :=
  (touch_window_cap_formula 3600 ⟨some 1800000, some 1800000⟩ 1800000 rfl).2.1
    (by norm_num)

/-- C3 counterexample: for a touch at `now = 1000000` ms of a session whose
stored hint is 1000 s and whose `cookie.originalMaxAge` is null while
`cookie.maxAge` is 1800000 ms, the code computes an elapsed time of 0 (null
coerces to 0; there is no fallback to the nominal lifetime) and performs no
write, while the claimed formula gives 1800 s — far above the effective
window, so under the claim the decision would be a write. -/
theorem touch_elapsed_fallback_counterexample :
    timePassedSecs 1000000 ⟨some 1000, ⟨some 1800000, none⟩⟩ = 0 ∧
    specElapsedSinceLastRefresh 1000 ⟨some 1000, ⟨some 1800000, none⟩⟩ = 1800 ∧
    specElapsedSinceLastRefresh 1000 ⟨some 1000, ⟨some 1800000, none⟩⟩ >
      touchAfterSecsCapped 3600 (⟨some 1000, ⟨some 1800000, none⟩⟩ :
        SessionTouchData).cookie ∧
    touchOps 1000000 3600 "session#" "abc" ⟨some 1000, ⟨some 1800000, none⟩⟩ = [] := by
  have hnow : currentTimeSecs 1000000 = 1000 := by decide
  have h1 : timePassedSecs 1000000 ⟨some 1000, ⟨some 1800000, none⟩⟩ = 0 := by
    rw [timePassedSecs, hnow, omaValue, expiresTimeSecs]
    norm_num
  have hcap : touchAfterSecsCapped 3600 (⟨some 1800000, none⟩ : CookieData) = 0 := by
    rw [touchAfterSecsCapped, if_pos (by norm_num [omaValue])]
    have h0 : Rat.floor ((1 / 10 : Rat) *
        (omaValue (⟨some 1800000, none⟩ : CookieData) / 1000)) = 0 := by
      refine ratFloorEval _ 0 ?_
      norm_num [omaValue]
    rw [h0]
    norm_num
  have h2 : specElapsedSinceLastRefresh 1000 ⟨some 1000, ⟨some 1800000, none⟩⟩ = 1800 := by
    rw [specElapsedSinceLastRefresh, expiresTimeSecs]
    norm_num
  have hst : shouldTouch 1000000 3600 ⟨some 1000, ⟨some 1800000, none⟩⟩ = false := by
    rw [shouldTouch, decide_eq_false_iff_not, not_lt]
    rw [h1]
    rw [show (⟨some 1000, ⟨some 1800000, none⟩⟩ :
      SessionTouchData).cookie = (⟨some 1800000, none⟩ : CookieData) from rfl, hcap]
  refine ⟨h1, h2, ?_, ?_⟩
  · rw [h2]
    rw [show (⟨some 1000, ⟨some 1800000, none⟩⟩ :
      SessionTouchData).cookie = (⟨some 1800000, none⟩ : CookieData) from rfl, hcap]
    norm_num
  · rw [touchOps, if_neg (by rw [hst]; exact Bool.false_ne_true)]

/-- C3 amended: the elapsed time is computed in seconds as the current time
plus `cookie.originalMaxAge / 1000` minus the session's stored expiration
hint when `originalMaxAge` is numeric; when `originalMaxAge` is null it
contributes 0 (no fallback to the nominal lifetime exists), and `touch`
writes exactly when this computed value exceeds the effective window. -/
theorem touch_elapsed_formula (nowMs : Int) (touchAfter : Rat)
    (pfx sid : String) (s : SessionTouchData) :
    (∀ m, s.cookie.originalMaxAge = some m →
      timePassedSecs nowMs s =
        (currentTimeSecs nowMs : Rat) + m / 1000 - expiresTimeSecs s) ∧
    (s.cookie.originalMaxAge = none →
      timePassedSecs nowMs s = (currentTimeSecs nowMs : Rat) - expiresTimeSecs s) ∧
    (touchOps nowMs touchAfter pfx sid s ≠ [] ↔
      timePassedSecs nowMs s > touchAfterSecsCapped touchAfter s.cookie) := by
  refine ⟨?_, ?_, ?_⟩
  · intro m hm
    rw [timePassedSecs, omaValue, hm]
    rfl
  · intro hm
    rw [timePassedSecs, omaValue, hm]
    norm_num
  · rw [touchOps, shouldTouch]
    by_cases h : timePassedSecs nowMs s > touchAfterSecsCapped touchAfter s.cookie
    · simp [h]
    · simp [h]

/-- Witness for C3's amended theorem at a concrete input with a numeric
`originalMaxAge`. -/
theorem touch_elapsed_formula_witness :
    timePassedSecs 2000000 ⟨some 100, ⟨some 1800000, some 1800000⟩⟩ =
      (currentTimeSecs 2000000 : Rat) + 1800000 / 1000 -
        expiresTimeSecs ⟨some 100, ⟨some 1800000, some 1800000⟩⟩ :=
  (touch_elapsed_formula 2000000 3600 "session#" "abc"
    ⟨some 100, ⟨some 1800000, some 1800000⟩⟩).1 1800000 rfl

/-- C4: for every completed `set` (and every `touch` that performs a write) the
stored expiration is `floor((now + cookie.maxAge)/1000)` epoch seconds when
`cookie.maxAge` is numeric and `floor((now + 24h)/1000)` otherwise; it is
recomputed from the clock and the cookie's `maxAge` alone, never copied from
any expiration value carried by the input session. -/
theorem set_expires_recomputed (toISO : Int → String) (nowMs : Int)
    (fields : List (String × JSVal)) (r : Row)
    (hr : setRow toISO nowMs fields = some r) :
    (∀ m, cookieMaxAgeProp fields = some (some m) →
      r.expires = some (Rat.floor (((nowMs : Rat) + m) / 1000))) ∧
    (cookieMaxAgeProp fields = some none →
      r.expires = some (Rat.floor (((nowMs : Rat) + 60 * 60 * 24 * 1000) / 1000))) ∧
    (∀ fields2 r2, setRow toISO nowMs fields2 = some r2 →
      cookieMaxAgeProp fields2 = cookieMaxAgeProp fields → r2.expires = r.expires) ∧
    (∀ (touchAfter : Rat) (pfx sid : String) (s : SessionTouchData),
      touchOps nowMs touchAfter pfx sid s ≠ [] →
      touchOps nowMs touchAfter pfx sid s =
        [WriteOp.updateExpires (pfx ++ sid)
          (newExpireSecondsSinceEpochUTC nowMs s.cookie.maxAge)]) := by
  rw [setRow, Option.map_eq_some'] at hr
  obtain ⟨ma, hma, hrow⟩ := hr
  refine ⟨?_, ?_, ?_, ?_⟩
  · intro m hm
    rw [hm] at hma
    cases hma
    rw [← hrow, newExpireSecondsSinceEpochUTC]
  · intro hm
    rw [hm] at hma
    cases hma
    rw [← hrow, newExpireSecondsSinceEpochUTC]
  · intro fields2 r2 hr2 heq
    rw [setRow, Option.map_eq_some'] at hr2
    obtain ⟨ma2, hma2, hrow2⟩ := hr2
    rw [heq, hma] at hma2
    cases hma2
    rw [← hrow, ← hrow2]
  · intro touchAfter pfx sid s hne
    rw [touchOps] at hne ⊢
    by_cases h : shouldTouch nowMs touchAfter s = true
    · rw [if_pos h]
    · rw [if_neg h] at hne
      exact absurd rfl hne

/-- Witness for C4 at a concrete input: a session with both a numeric
`cookie.maxAge` of 3600000 ms and a (stale) stored expiration hint. -/
theorem set_expires_recomputed_witness :
    (⟨some (newExpireSecondsSinceEpochUTC 5000 (some 3600000)),
      some (buildStoredSess (fun _ => "")
        [("cookie", JSVal.obj [("maxAge", JSVal.num 3600000),
                               ("expires", JSVal.str "1999-01-01T00:00:00.000Z")])]),
      []⟩ : Row).expires =
      some (Rat.floor ((((5000 : Int) : Rat) + 3600000) / 1000)) := by
  exact (set_expires_recomputed (fun _ => "") 5000
    [("cookie", JSVal.obj [("maxAge", JSVal.num 3600000),
                           ("expires", JSVal.str "1999-01-01T00:00:00.000Z")])]
    _ rfl).1 3600000 rfl

/-- C5 counterexample: a physically present row whose stored `expiresAt` is 0
— an epoch-seconds instant far in the past relative to `now = 1000000` ms —
is returned by `get` as a live session rather than "no session", because the
code's truthiness guard skips the expiration comparison for a zero `expires`. -/
theorem get_past_zero_expires_counterexample :
    (0 : Int) * 1000 < 1000000 ∧
    get (fun _ => none) 1000000
      (fun k => if k = "session#xyz" then
        some ⟨some 0, some (.obj [("user", .str "test")]), []⟩ else none)
      "session#xyz" = .session (.obj [("user", .str "test")]) := by
  constructor
  · decide
  · rfl

/-- C5 amended: an absent row yields "no session" (not an error); a present
row whose `expires` is nonzero and lies in the past yields "no session" even
though the row is physically retrievable (rows whose `expires` attribute is
absent or 0 skip the expiration comparison); a present row whose payload is
missing or the empty string yields "no session"; otherwise `get` returns the
stored structured payload. -/
theorem get_no_session_cases (parse : String → Option JSVal) (nowMs : Int)
    (t : Table) (key : String) :
    (t key = none → get parse nowMs t key = .noSession) ∧
    (∀ row e, t key = some row → row.expires = some e → e ≠ 0 →
      e * 1000 < nowMs → get parse nowMs t key = .noSession) ∧
    (∀ row, t key = some row → expiresInPast row.expires nowMs = false →
      (row.sess = none ∨ row.sess = some (JSVal.str "")) →
      get parse nowMs t key = .noSession) ∧
    (∀ row v, t key = some row → expiresInPast row.expires nowMs = false →
      row.sess = some v → v.truthy = true → (∀ str2, v ≠ JSVal.str str2) →
      get parse nowMs t key = .session v) := by
  refine ⟨?_, ?_, ?_, ?_⟩
  · intro h
    simp [DynamoDBStore.get, h]
  · intro row e hrow he hne hlt
    have hx : expiresInPast row.expires nowMs = true := by
      rw [he, expiresInPast]
      simp [hne, hlt]
    simp [DynamoDBStore.get, hrow, hx]
  · intro row hrow hexp hsess
    rcases hsess with h | h
    · simp [DynamoDBStore.get, hrow, hexp, h]
    · simp [DynamoDBStore.get, hrow, hexp, h, JSVal.truthy]
  · intro row v hrow hexp hsess htru hstr
    cases v with
    | str s2 => exact absurd rfl (hstr s2)
    | null =>
      simp [JSVal.truthy] at htru
    | bool b =>
      simp [JSVal.truthy] at htru
      subst htru
      simp [DynamoDBStore.get, hrow, hexp, hsess, JSVal.truthy]
    | num n =>
      simp [JSVal.truthy] at htru
      simp [DynamoDBStore.get, hrow, hexp, hsess, JSVal.truthy, htru]
    | date ms =>
      simp [DynamoDBStore.get, hrow, hexp, hsess, JSVal.truthy]
    | arr xs =>
      simp [DynamoDBStore.get, hrow, hexp, hsess, JSVal.truthy]
    | obj fs =>
      simp [DynamoDBStore.get, hrow, hexp, hsess, JSVal.truthy]

/-- Witness for C5's amended theorem at a concrete input: a row with a
nonzero past expiration is reported as "no session". -/
theorem get_no_session_cases_witness :
    get (fun _ => none) 2000000000
      (fun k => if k = "session#w5" then
        some ⟨some 1000, some (.obj [("user", .str "w")]), []⟩ else none)
      "session#w5" = .noSession :=
  (get_no_session_cases (fun _ => none) 2000000000
    (fun k => if k = "session#w5" then
      some ⟨some 1000, some (.obj [("user", .str "w")]), []⟩ else none)
    "session#w5").2.1 ⟨some 1000, some (.obj [("user", .str "w")]), []⟩ 1000
    rfl rfl (by decide) (by decide)

/-- C8: when `get` reads a row whose (non-empty) payload is stored as a string
— the legacy format — the payload is parsed into structured data before being
returned, and a parse failure is reported as an error on the callback rather
than as a session. -/
theorem get_parses_legacy_string (parse : String → Option JSVal) (nowMs : Int)
    (t : Table) (key : String) (row : Row) (s : String)
    (hrow : t key = some row) (hexp : expiresInPast row.expires nowMs = false)
    (hsess : row.sess = some (JSVal.str s)) (hne : s ≠ "") :
    (∀ v, parse s = some v → get parse nowMs t key = .session v) ∧
    (parse s = none → get parse nowMs t key = .error) := by
  constructor
  · intro v hv
    simp [DynamoDBStore.get, hrow, hexp, hsess, JSVal.truthy, hne, hv]
  · intro hv
    simp [DynamoDBStore.get, hrow, hexp, hsess, JSVal.truthy, hne, hv]

/-- Witness for C8 at a concrete input: a legacy string payload that parses,
and the parsed object is returned. -/
theorem get_parses_legacy_string_witness :
    get (fun s => if s = "{}" then some (.obj [("user", .str "test")]) else none)
      1000
      (fun k => if k = "sess:124" then some ⟨some 99999, some (.str "{}"), []⟩ else none)
      "sess:124" = .session (.obj [("user", .str "test")]) :=
  (get_parses_legacy_string
    (fun s => if s = "{}" then some (.obj [("user", .str "test")]) else none)
    1000
    (fun k => if k = "sess:124" then some ⟨some 99999, some (.str "{}"), []⟩ else none)
    "sess:124" ⟨some 99999, some (.str "{}"), []⟩ "{}"
    rfl (by decide) rfl (by decide)).1 (.obj [("user", .str "test")]) rfl

/-- C9: `destroy` issues one unconditional delete and its callback receives no
error, for every table — in particular when no row exists under
`pfx ++ sid` — and destroying twice in a row also succeeds and leaves the
same table; a `get` performed after `destroy` on the same session id returns
"no session". -/
theorem destroy_idempotent_then_get_none (parse : String → Option JSVal)
    (nowMs : Int) (t : Table) (pfx sid : String) :
    (destroy t pfx sid).2 = none ∧
    (destroy (destroy t pfx sid).1 pfx sid).2 = none ∧
    (destroy (destroy t pfx sid).1 pfx sid).1 = (destroy t pfx sid).1 ∧
    get parse nowMs (destroy t pfx sid).1 (pfx ++ sid) = .noSession := by
  refine ⟨rfl, rfl, ?_, ?_⟩
  · funext k
    simp only [destroy, applyOp]
    by_cases h : k = pfx ++ sid
    · rw [if_pos h, if_pos h]
    · rw [if_neg h, if_neg h]
  · have h : (destroy t pfx sid).1 (pfx ++ sid) = none := by
      simp [destroy, applyOp]
    simp [DynamoDBStore.get, h]

/-- C10: a stored row whose `expires` attribute is absent or 0 is never
treated as logically expired by `get`: the result does not depend on the
clock at all, and a present, truthy, non-string payload is returned no matter
how much time has passed; conversely `get` reports "no session" for a row
with such a payload only when its `expires` is nonzero and strictly less than
the current time. -/
theorem get_skips_falsy_expires (parse : String → Option JSVal) (t : Table)
    (key : String) (row : Row) (hrow : t key = some row) :
    ((row.expires = none ∨ row.expires = some 0) →
      (∀ nowMs nowMs2, get parse nowMs t key = get parse nowMs2 t key) ∧
      (∀ v, row.sess = some v → v.truthy = true → (∀ s2, v ≠ JSVal.str s2) →
        ∀ nowMs, get parse nowMs t key = .session v)) ∧
    (∀ nowMs v, row.sess = some v → v.truthy = true → (∀ s2, v ≠ JSVal.str s2) →
      get parse nowMs t key = .noSession →
      ∃ e, row.expires = some e ∧ e ≠ 0 ∧ e * 1000 < nowMs) := by
  constructor
  · intro hfalsy
    have hexp : ∀ nowMs, expiresInPast row.expires nowMs = false := by
      intro nowMs
      rcases hfalsy with h | h
      · rw [h, expiresInPast]
      · rw [h, expiresInPast]
        simp
    constructor
    · intro nowMs nowMs2
      simp only [DynamoDBStore.get, hrow, hexp]
    · intro v hsess htru hstr nowMs
      cases v with
      | str s2 => exact absurd rfl (hstr s2)
      | null => simp [JSVal.truthy] at htru
      | bool b =>
        simp [JSVal.truthy] at htru
        subst htru
        simp [DynamoDBStore.get, hrow, hexp, hsess, JSVal.truthy]
      | num n =>
        simp [JSVal.truthy] at htru
        simp [DynamoDBStore.get, hrow, hexp, hsess, JSVal.truthy, htru]
      | date ms => simp [DynamoDBStore.get, hrow, hexp, hsess, JSVal.truthy]
      | arr xs => simp [DynamoDBStore.get, hrow, hexp, hsess, JSVal.truthy]
      | obj fs => simp [DynamoDBStore.get, hrow, hexp, hsess, JSVal.truthy]
  · intro nowMs v hsess htru hstr hns
    by_cases hexp : expiresInPast row.expires nowMs = true
    · rcases hrexp : row.expires with _ | e
      · rw [hrexp, expiresInPast] at hexp
        exact absurd hexp Bool.false_ne_true
      · refine ⟨e, rfl, ?_⟩
        rw [hrexp, expiresInPast] at hexp
        simpa using hexp
    · exfalso
      rw [Bool.not_eq_true] at hexp
      cases v with
      | str s2 => exact absurd rfl (hstr s2)
      | null => simp [JSVal.truthy] at htru
      | bool b =>
        simp [JSVal.truthy] at htru
        subst htru
        simp [DynamoDBStore.get, hrow, hexp, hsess, JSVal.truthy] at hns
      | num n =>
        simp [JSVal.truthy] at htru
        simp [DynamoDBStore.get, hrow, hexp, hsess, JSVal.truthy, htru] at hns
      | date ms => simp [DynamoDBStore.get, hrow, hexp, hsess, JSVal.truthy] at hns
      | arr xs => simp [DynamoDBStore.get, hrow, hexp, hsess, JSVal.truthy] at hns
      | obj fs => simp [DynamoDBStore.get, hrow, hexp, hsess, JSVal.truthy] at hns

/-- Witness for C10 at a concrete input: a row with `expires = 0` and a
payload, read at a clock value far past any plausible expiration. -/
theorem get_skips_falsy_expires_witness :
    get (fun _ => none) 99999999999999
      (fun k => if k = "session#w10" then
        some ⟨some 0, some (.obj [("user", .str "w")]), []⟩ else none)
      "session#w10" = .session (.obj [("user", .str "w")]) :=
  ((get_skips_falsy_expires (fun _ => none)
    (fun k => if k = "session#w10" then
      some ⟨some 0, some (.obj [("user", .str "w")]), []⟩ else none)
    "session#w10" ⟨some 0, some (.obj [("user", .str "w")]), []⟩ rfl).1
    (Or.inr rfl)).2 (.obj [("user", .str "w")]) rfl rfl
    (fun s2 => by simp) 99999999999999

/-- C6 (code evaluated at the failing input): for the session of the repo's
own date-serialization test — a `Date` nested outside the cookie plus a cookie
with `maxAge` one hour — `set` stores the payload with the raw `Date` value
untouched (only the `cookie` subtree is JSON round-tripped), even though the
repo's `deepReplaceDatesWithISOStrings` (which its test expects to govern the
stored form) would replace that nested date with its ISO string; an immediate
`get` then observes the raw date value, not the ISO string form. -/
theorem set_keeps_raw_date_outside_cookie (toISO : Int → String)
    (parse : String → Option JSVal) :
    buildStoredSess toISO
        [("mySessionInfo", .obj [("dateField", .date 1625101323000)]),
         ("cookie", .obj [("maxAge", .num 3600000)])] =
      .obj [("mySessionInfo", .obj [("dateField", .date 1625101323000)]),
            ("cookie", .obj [("maxAge", .num 3600000)])] ∧
    deepReplaceDatesWithISOStrings toISO
        (.obj [("mySessionInfo", .obj [("dateField", .date 1625101323000)]),
               ("cookie", .obj [("maxAge", .num 3600000)])]) =
      .obj [("mySessionInfo", .obj [("dateField", .str (toISO 1625101323000))]),
            ("cookie", .obj [("maxAge", .num 3600000)])] ∧
    get parse 1625101323000
        (setTable toISO 1625101323000 "session#" "129"
          [("mySessionInfo", .obj [("dateField", .date 1625101323000)]),
           ("cookie", .obj [("maxAge", .num 3600000)])]
          (fun _ => none))
        ("session#" ++ "129") =
      .session (.obj [("mySessionInfo", .obj [("dateField", .date 1625101323000)]),
                      ("cookie", .obj [("maxAge", .num 3600000)])]) := by
  have h1 : buildStoredSess toISO
      [("mySessionInfo", .obj [("dateField", .date 1625101323000)]),
       ("cookie", .obj [("maxAge", .num 3600000)])] =
      .obj [("mySessionInfo", .obj [("dateField", .date 1625101323000)]),
            ("cookie", .obj [("maxAge", .num 3600000)])] := by
    simp [buildStoredSess, lookupField, JSVal.truthy, jsonRoundTrip, jsonRoundTripFields]
  have hexp : newExpireSecondsSinceEpochUTC 1625101323000 (some 3600000) = 1625104923 := by
    rw [newExpireSecondsSinceEpochUTC]
    exact ratFloorEval _ 1625104923 (by norm_num)
  refine ⟨h1, ?_, ?_⟩
  · simp [deepReplaceDatesWithISOStrings, deepReplaceFields]
  · have hset : setTable toISO 1625101323000 "session#" "129"
        [("mySessionInfo", .obj [("dateField", .date 1625101323000)]),
         ("cookie", .obj [("maxAge", .num 3600000)])]
        (fun _ => none) "session#129" =
        some ⟨some 1625104923,
          some (.obj [("mySessionInfo", .obj [("dateField", .date 1625101323000)]),
                      ("cookie", .obj [("maxAge", .num 3600000)])]), []⟩ := by
      simp [setTable, setOps, setRow, cookieMaxAgeProp, lookupField, applyOps, applyOp,
        hexp, h1]
    have hpast : expiresInPast (some 1625104923) 1625101323000 = false := by decide
    simp [DynamoDBStore.get, hset, hpast, JSVal.truthy]

/-- Polling trace when the first ACTIVE observation is at loop index `j`:
`j` non-ACTIVE describes each followed by a 3000 ms sleep, then the ACTIVE
describe, with `tableReady = true`. -/
theorem pollForActive_first_active (poll : Nat → DescribeResult) :
    ∀ (j fuel i : Nat), j < fuel → isActiveDescribe (poll (i + j)) = true →
    (∀ k, k < j → isActiveDescribe (poll (i + k)) = false) →
    pollForActive poll i fuel =
      ((List.replicate j ([BootCall.describeTable, BootCall.sleep 3000])).flatten ++
        [BootCall.describeTable], true) := by
  intro j
  induction j with
  | zero =>
    intro fuel i hlt hact _
    cases fuel with
    | zero => omega
    | succ f =>
      rw [Nat.add_zero] at hact
      simp [pollForActive, hact]
  | succ j ih =>
    intro fuel i hlt hact hk
    cases fuel with
    | zero => omega
    | succ f =>
      have h0 : isActiveDescribe (poll i) = false := by
        have h00 := hk 0 (Nat.succ_pos j)
        rwa [Nat.add_zero] at h00
      have hact2 : isActiveDescribe (poll (i + 1 + j)) = true := by
        rw [show i + 1 + j = i + (j + 1) by omega]
        exact hact
      have hk2 : ∀ k, k < j → isActiveDescribe (poll (i + 1 + k)) = false := by
        intro k hklt
        rw [show i + 1 + k = i + (k + 1) by omega]
        exact hk (k + 1) (by omega)
      have ih2 := ih f (i + 1) (by omega) hact2 hk2
      simp [pollForActive, h0, ih2, List.replicate_succ]

/-- Polling trace when no poll within the budget observes ACTIVE: `fuel`
describe/sleep pairs and `tableReady = false`. -/
theorem pollForActive_never_active (poll : Nat → DescribeResult) :
    ∀ (fuel i : Nat), (∀ k, k < fuel → isActiveDescribe (poll (i + k)) = false) →
    pollForActive poll i fuel =
      ((List.replicate fuel ([BootCall.describeTable, BootCall.sleep 3000])).flatten, false) := by
  intro fuel
  induction fuel with
  | zero =>
    intro i _
    rw [pollForActive]
    simp
  | succ f ih =>
    intro i hk
    have h0 : isActiveDescribe (poll i) = false := by
      have h00 := hk 0 (Nat.succ_pos f)
      rwa [Nat.add_zero] at h00
    have hk2 : ∀ k, k < f → isActiveDescribe (poll (i + 1 + k)) = false := by
      intro k hklt
      rw [show i + 1 + k = i + (k + 1) by omega]
      exact hk (k + 1) (by omega)
    have ih2 := ih (i + 1) hk2
    simp [pollForActive, h0, ih2, List.replicate_succ]

/-- The polling loop never calls anything but `DescribeTable` and `sleep`:
counting any other call in its trace gives 0, and it performs at most `fuel`
describes. -/
theorem pollForActive_counts (poll : Nat → DescribeResult) :
    ∀ (fuel i : Nat),
    ((pollForActive poll i fuel).1.count BootCall.createTable = 0 ∧
     (pollForActive poll i fuel).1.count (BootCall.updateTTL "expires") = 0) ∧
    (pollForActive poll i fuel).1.count BootCall.describeTable ≤ fuel := by
  intro fuel
  induction fuel with
  | zero =>
    intro i
    rw [pollForActive]
    simp
  | succ f ih =>
    intro i
    rw [pollForActive]
    by_cases h : isActiveDescribe (poll i) = true
    · rw [if_pos h]
      simp [List.count_cons]
    · rw [if_neg h]
      have ih2 := ih (i + 1)
      simp only [List.count_cons]
      refine ⟨⟨?_, ?_⟩, ?_⟩
      · simp [ih2.1.1]
      · simp [ih2.1.2]
      · simp only [List.count_cons] at ih2 ⊢
        have hd := ih2.2
        simp
        omega

/-- Counting calls in a flattened run of describe/sleep poll blocks. -/
theorem count_replicate_poll_block (x : BootCall) :
    ∀ n : Nat,
    ((List.replicate n ([BootCall.describeTable, BootCall.sleep 3000])).flatten).count x =
      n * (([BootCall.describeTable, BootCall.sleep 3000] : List BootCall).count x) := by
  intro n
  induction n with
  | zero => simp
  | succ m ih =>
    simp only [List.replicate_succ, List.flatten_cons, List.count_append, ih]
    ring

/-- C7: when the initial `DescribeTable` resolves with a defined table,
bootstrapping returns at once with zero `CreateTable` calls; when it fails,
exactly one `CreateTable` call is made and table metadata is polled at most 10
times (at most 11 describes in all) with 3000 ms sleeps between polls; on the
first ACTIVE observation exactly one `UpdateTimeToLive` call on the attribute
`expires` is made and (when that call succeeds) the procedure returns
normally; if all 10 polls pass without an ACTIVE observation the procedure
returns normally without any `UpdateTimeToLive` call and without an error. -/
theorem createTableIfNotExists_behaviour (env : BootEnv) :
    ((∃ st, env.firstDescribe = DescribeResult.found st) →
      createTableIfNotExists env = ([BootCall.describeTable], BootOutcome.ok) ∧
      (createTableIfNotExists env).1.count BootCall.createTable = 0) ∧
    (env.firstDescribe = DescribeResult.failed →
      ((createTableIfNotExists env).1.count BootCall.createTable = 1 ∧
        (createTableIfNotExists env).1.count BootCall.describeTable ≤ 11) ∧
      (env.createOk = true →
        (∀ j, j < 10 → isActiveDescribe (env.poll j) = true →
          (∀ k, k < j → isActiveDescribe (env.poll k) = false) →
          (createTableIfNotExists env).1.count (BootCall.updateTTL "expires") = 1 ∧
          (env.ttlOk = true →
            createTableIfNotExists env =
              (BootCall.describeTable :: BootCall.createTable ::
                ((List.replicate j ([BootCall.describeTable, BootCall.sleep 3000])).flatten ++
                  [BootCall.describeTable, BootCall.updateTTL "expires"]),
                BootOutcome.ok))) ∧
        ((∀ k, k < 10 → isActiveDescribe (env.poll k) = false) →
          (createTableIfNotExists env).1.count (BootCall.updateTTL "expires") = 0 ∧
          createTableIfNotExists env =
            (BootCall.describeTable :: BootCall.createTable ::
              (List.replicate 10 ([BootCall.describeTable, BootCall.sleep 3000])).flatten,
              BootOutcome.ok)))) := by
  constructor
  · rintro ⟨st, hst⟩
    have htr : createTableIfNotExists env = ([BootCall.describeTable], BootOutcome.ok) := by
      simp [createTableIfNotExists, hst]
    exact ⟨htr, by rw [htr]; rfl⟩
  · intro hfd
    constructor
    · by_cases hco : env.createOk = true
      · have hcnt := pollForActive_counts env.poll 10 0
        cases hp2 : (pollForActive env.poll 0 10).2 with
        | false =>
          have htr : createTableIfNotExists env =
              (BootCall.describeTable :: BootCall.createTable ::
                (pollForActive env.poll 0 10).1, BootOutcome.ok) := by
            simp [createTableIfNotExists, hfd, hco, hp2]
          rw [htr]
          simp only [List.count_cons, List.count_nil]
          constructor
          · simp [hcnt.1.1]
          · have hd := hcnt.2
            simp
            omega
        | true =>
          cases httl : env.ttlOk with
          | true =>
            have htr : createTableIfNotExists env =
                (BootCall.describeTable :: BootCall.createTable ::
                  ((pollForActive env.poll 0 10).1 ++ [BootCall.updateTTL "expires"]),
                  BootOutcome.ok) := by
              simp [createTableIfNotExists, hfd, hco, hp2, httl]
            rw [htr]
            simp only [List.count_cons, List.count_append]
            constructor
            · simp [hcnt.1.1]
            · have hd := hcnt.2
              simp
              omega
          | false =>
            have htr : createTableIfNotExists env =
                (BootCall.describeTable :: BootCall.createTable ::
                  ((pollForActive env.poll 0 10).1 ++ [BootCall.updateTTL "expires"]),
                  BootOutcome.error) := by
              simp [createTableIfNotExists, hfd, hco, hp2, httl]
            rw [htr]
            simp only [List.count_cons, List.count_append]
            constructor
            · simp [hcnt.1.1]
            · have hd := hcnt.2
              simp
              omega
      · have hcf : env.createOk = false := by
          cases hcoe : env.createOk
          · rfl
          · exact absurd hcoe hco
        have htr : createTableIfNotExists env =
            ([BootCall.describeTable, BootCall.createTable], BootOutcome.error) := by
          simp [createTableIfNotExists, hfd, hcf]
        rw [htr]
        constructor
        · rfl
        · decide
    · intro hco
      constructor
      · intro j hj hact hk
        have hpoll := pollForActive_first_active env.poll j 10 0 hj
          (by rwa [Nat.zero_add]) (fun k hk2 => by rw [Nat.zero_add]; exact hk k hk2)
        have hcntblk := count_replicate_poll_block (BootCall.updateTTL "expires") j
        cases httl : env.ttlOk with
        | true =>
          have htr : createTableIfNotExists env =
              (BootCall.describeTable :: BootCall.createTable ::
                ((List.replicate j ([BootCall.describeTable, BootCall.sleep 3000])).flatten ++
                  [BootCall.describeTable, BootCall.updateTTL "expires"]),
                BootOutcome.ok) := by
            simp [createTableIfNotExists, hfd, hco, hpoll, httl]
          constructor
          · rw [htr]
            simp [List.count_cons, List.count_append, hcntblk]
          · intro _
            exact htr
        | false =>
          have htr : createTableIfNotExists env =
              (BootCall.describeTable :: BootCall.createTable ::
                ((List.replicate j ([BootCall.describeTable, BootCall.sleep 3000])).flatten ++
                  [BootCall.describeTable, BootCall.updateTTL "expires"]),
                BootOutcome.error) := by
            simp [createTableIfNotExists, hfd, hco, hpoll, httl]
          constructor
          · rw [htr]
            simp [List.count_cons, List.count_append, hcntblk]
          · intro httl2
            exact absurd httl2 Bool.false_ne_true
      · intro hk
        have hpoll := pollForActive_never_active env.poll 10 0
          (fun k hk2 => by rw [Nat.zero_add]; exact hk k hk2)
        have hcntblk := count_replicate_poll_block (BootCall.updateTTL "expires") 10
        have htr : createTableIfNotExists env =
            (BootCall.describeTable :: BootCall.createTable ::
              (List.replicate 10 ([BootCall.describeTable, BootCall.sleep 3000])).flatten,
              BootOutcome.ok) := by
          simp [createTableIfNotExists, hfd, hco, hpoll]
        constructor
        · rw [htr]
          simp [List.count_cons, hcntblk]
        · exact htr

/-- Witness for C7 at a concrete environment: the first describe fails, the
second poll (index 1) reports ACTIVE, creation and TTL-enablement succeed;
the trace is describe, create, one non-ACTIVE poll with its sleep, the ACTIVE
poll, then the TTL call, returning normally. -/
theorem createTableIfNotExists_behaviour_witness :
    createTableIfNotExists
        ⟨DescribeResult.failed, true,
         (fun i => if i == 1 then DescribeResult.found (some "ACTIVE")
                   else DescribeResult.found (some "CREATING")), true⟩ =
      (BootCall.describeTable :: BootCall.createTable ::
        ((List.replicate 1 ([BootCall.describeTable, BootCall.sleep 3000])).flatten ++
          [BootCall.describeTable, BootCall.updateTTL "expires"]),
        BootOutcome.ok) :=
  ((((createTableIfNotExists_behaviour
      ⟨DescribeResult.failed, true,
       (fun i => if i == 1 then DescribeResult.found (some "ACTIVE")
                 else DescribeResult.found (some "CREATING")), true⟩).2 rfl).2 rfl).1
    1 (by decide) (by decide) (by decide)).2 rfl

end SessionStore
